import Mathlib

/-!
Shallow embedding of `ignition/service/requestqueue.py`: the Kafka request
queue handlers (base, infrastructure, lifecycle), the dead-letter forward,
the consumer factory and the request queue service facade.

Requests are open JSON-like mappings (association lists with Python `dict`
update semantics).  Interactions with the external ports (publisher,
consumer commit, delegate request handler, script materializer) and log
warnings are recorded as an explicit event trace, so that the theorems can
speak about which side effects each code path performs and in which order.
JSON (de)serialization is modelled as the identity on the parsed mapping:
`JsonContent` lives in the messaging module, outside the embedded file, and
every claim treats the wire payload and the parsed mapping interchangeably.
-/

set_option autoImplicit false

namespace Ignition

/-- JSON-like values stored in a request mapping.  `propMap` marks a value
that has been wrapped by `PropValueMap` (the ordered, case-insensitive
property container from `ignition.utils.propvaluemap`, outside the embedded
file); the wrapped raw value is kept intact. -/
inductive Value where
  | null
  | bool (b : Bool)
  | int (n : Int)
  | str (s : String)
  | arr (items : List Value)
  | obj (entries : List (String × Value))
  | propMap (wrapped : Value)

/-- Python `x is None`. -/
def Value.isNull : Value → Bool
  | .null => true
  | _ => false

/-- A request is a JSON object: an insertion-ordered mapping from string
keys to values, with unique keys, as a Python `dict`. -/
abbrev Request := List (String × Value)

/-- Python `request.get(key, None)` / `key in request` combined: the value
bound to `key`, if any. -/
def getVal? : Request → String → Option Value
  | [], _ => none
  | (k, v) :: rest, key => if k = key then some v else getVal? rest key

/-- Lookup with `null` as the default, for accesses `request[key]` made on
paths where the key is known to be present. -/
def getValD (r : Request) (key : String) : Value :=
  (getVal? r key).getD .null

/-- Python `request[key] = v`: update in place when the key exists,
otherwise append, preserving insertion order. -/
def setVal : Request → String → Value → Request
  | [], key, v => [(key, v)]
  | (k, w) :: rest, key, v =>
    if k = key then (k, v) :: rest else (k, w) :: setVal rest key v

/-- Python `'key' not in request or request['key'] is None`, the guard used
by every required-field check in the source. -/
def missingOrNull (r : Request) (key : String) : Bool :=
  match getVal? r key with
  | none => true
  | some v => v.isNull

/-- Topic configuration: `request_queue_config.topic` / `.failed_topic`. -/
structure TopicConfig where
  name : String

/-- Queue configuration used by the handlers: primary topic, consumer group
id and dead-letter (failed) topic. -/
structure RequestQueueConfig where
  topic : TopicConfig
  group_id : String
  failed_topic : TopicConfig

/-- Observable side effects of one processing step: calls to the external
ports (publisher `post`, consumer `commit`, the delegate request handler,
the script materializer `build_tree`) and the log statements the claims
mention. -/
inductive Event where
  | logWarn (field : String)
  | logException (request_id : Option Value) (topic : String)
  | logFatal (topic : String)
  | post (topic : String) (body : Request) (key : Option Value)
  | commit
  | delegateCall (request : Request)
  | buildTreeCall (name : String) (scripts : Value)

def Event.isCommit : Event → Bool
  | .commit => true
  | _ => false

def Event.isPostTo (topic : String) : Event → Bool
  | .post t _ _ => t == topic
  | _ => false

def Event.isDelegateCall : Event → Bool
  | .delegateCall _ => true
  | _ => false

def Event.isBuildTreeCall : Event → Bool
  | .buildTreeCall _ _ => true
  | _ => false

/-- Number of consumer `commit()` calls in a trace. -/
def countCommits (evs : List Event) : Nat :=
  evs.countP Event.isCommit

/-- Number of messages published to `topic` in a trace. -/
def countPostsTo (topic : String) (evs : List Event) : Nat :=
  evs.countP (Event.isPostTo topic)

/-- Number of delegate (Request Handler Port) invocations in a trace. -/
def countDelegateCalls (evs : List Event) : Nat :=
  evs.countP Event.isDelegateCall

/-- Number of `build_tree` (Script Materializer Port) invocations. -/
def countBuildTreeCalls (evs : List Event) : Nat :=
  evs.countP Event.isBuildTreeCall

/-- The partition key chosen by `handle_failed_request`:
`request.get("request_id", None)` when that is not `None`, else no key. -/
def requestKey (r : Request) : Option Value :=
  match getVal? r "request_id" with
  | none => none
  | some v => if v.isNull then none else some v

/-- `KafkaRequestQueueHandler.handle_failed_request`: publish the serialized
request to the dead-letter (failed) topic, keyed by `request_id` when it is
present and not `None`, unkeyed otherwise. -/
def handle_failed_request (cfg : RequestQueueConfig) (r : Request) : Event :=
  .post cfg.failed_topic.name r (requestKey r)

/-- Outcome of a specialized `handle_request` hook: an ordinary boolean
return together with the (possibly mutated) request, or a propagated
exception. -/
inductive HandlerOutcome where
  | ret (b : Bool) (request : Request)
  | raised

/-- A specialized handler: from the enriched request to the emitted events
and the outcome. -/
abbrev Handler := Request → List Event × HandlerOutcome

/-- The required-field check sequence shared by both specialized handlers:
for each field in order, `if 'f' not in request or request['f'] is None:`
log a field-specific warning, forward to the dead-letter topic and stop.
Returns the events of the first failing check, or `none` when every field
is present. -/
def requireFields (cfg : RequestQueueConfig) (r : Request) :
    List String → Option (List Event)
  | [] => none
  | f :: fs =>
    if missingOrNull r f then
      some [.logWarn f, handle_failed_request cfg r]
    else
      requireFields cfg r fs

/-- First field of `fields` that is absent or `None` in `r`. -/
def firstMissingField (r : Request) (fields : List String) : Option String :=
  fields.find? (missingOrNull r)

/-- Required fields of an infrastructure request, in source check order. -/
def infraRequiredFields : List String :=
  ["request_id", "template", "template_type", "properties",
   "system_properties", "deployment_location"]

/-- Required fields of a lifecycle request, in source check order. -/
def lifecycleRequiredFields : List String :=
  ["request_id", "lifecycle_name", "lifecycle_scripts", "system_properties",
   "properties", "deployment_location"]

/-- The two normalization assignments of the infrastructure handler:
`request['properties'] = PropValueMap(request['properties'])` and then the
same for `system_properties`. -/
def infraNormalize (r : Request) : Request :=
  let r1 := setVal r "properties" (.propMap (getValD r "properties"))
  setVal r1 "system_properties" (.propMap (getValD r1 "system_properties"))

/-- The delegate Request Handler Port: returns a boolean, or raises. -/
abbrev Delegate := Request → Except Unit Bool

namespace KafkaInfrastructureRequestQueueHandler

/-- `KafkaInfrastructureRequestQueueHandler.handle_request`: validate the
six required fields in order, normalize the property maps, then delegate to
`infrastructure_request_handler.handle_request`; a delegate exception is
logged with the request id and topic and re-raised. -/
def handle_request (cfg : RequestQueueConfig) (delegate : Delegate)
    (request : Request) : List Event × HandlerOutcome :=
  match requireFields cfg request infraRequiredFields with
  | some evs => (evs, .ret false request)
  | none =>
    let r2 := infraNormalize request
    match delegate r2 with
    | .ok b => ([.delegateCall r2], .ret b r2)
    | .error _ =>
      ([.delegateCall r2,
        .logException (getVal? r2 "request_id") cfg.topic.name], .raised)

end KafkaInfrastructureRequestQueueHandler

/-- The enrichment performed by the lifecycle handler after validation:
`request['lifecycle_path'] = ...build_tree(file_name, lifecycle_scripts)`,
then the two `PropValueMap` normalizations. -/
def lifecycleEnrich (path : String) (r : Request) : Request :=
  let r1 := setVal r "lifecycle_path" (.str path)
  let r2 := setVal r1 "properties" (.propMap (getValD r1 "properties"))
  setVal r2 "system_properties" (.propMap (getValD r2 "system_properties"))

namespace KafkaLifecycleRequestQueueHandler

/-- `KafkaLifecycleRequestQueueHandler.handle_request`: validate the six
required fields in order, materialize `lifecycle_scripts` through the
Script Materializer Port under a freshly generated identifier (the
`uuid.uuid4()` value is supplied as the `file_name` parameter), record the
resulting path as `lifecycle_path`, normalize, then delegate; a delegate
exception is logged with the request id and topic and re-raised. -/
def handle_request (cfg : RequestQueueConfig)
    (build_tree : String → Value → String) (file_name : String)
    (delegate : Delegate) (request : Request) :
    List Event × HandlerOutcome :=
  match requireFields cfg request lifecycleRequiredFields with
  | some evs => (evs, .ret false request)
  | none =>
    let scripts := getValD request "lifecycle_scripts"
    let r3 := lifecycleEnrich (build_tree file_name scripts) request
    match delegate r3 with
    | .ok b =>
      ([.buildTreeCall file_name scripts, .delegateCall r3], .ret b r3)
    | .error _ =>
      ([.buildTreeCall file_name scripts, .delegateCall r3,
        .logException (getVal? r3 "request_id") cfg.topic.name], .raised)

end KafkaLifecycleRequestQueueHandler

/-- A topic/partition pair as returned by `poll`. -/
structure TopicPartition where
  topic : String
  partition : Int

/-- A polled Kafka message: its offset and its payload, modelled as the
already-deserialized request mapping. -/
structure KMessage where
  offset : Int
  payload : Request

/-- Result of one `process_request()` call: Python returns `None` when the
`for` loop over the poll result finds no message, `True`/`False` otherwise,
or terminates the process via `sys.exit(1)`. -/
inductive ProcResult where
  | retNone
  | ret (b : Bool)
  | exited (code : Nat)
  deriving DecidableEq

/-- The `partition`/`offset` enrichment done by the base handler before
invoking the specialized hook. -/
def baseEnrich (tp : TopicPartition) (m : KMessage) : Request :=
  setVal (setVal m.payload "partition" (.int tp.partition))
    "offset" (.int m.offset)

namespace KafkaRequestQueueHandler

/-- `KafkaRequestQueueHandler.process_request`: iterate the poll result
(`for topic_partition, messages in ...poll(...).items()`), take the first
non-empty message list, check `request_id`, enrich with partition/offset,
invoke the specialized hook, then commit on `True`, dead-letter on `False`,
or log and `sys.exit(1)` on an escaping exception.  When no message is
found the `for` body never returns and the Python function yields `None`. -/
def process_request (cfg : RequestQueueConfig) (handler : Handler) :
    List (TopicPartition × List KMessage) → List Event × ProcResult
  | [] => ([], .retNone)
  | (_, []) :: rest => process_request cfg handler rest
  | (tp, message :: _) :: _ =>
    let request := message.payload
    if missingOrNull request "request_id" then
      ([.logWarn "request_id", handle_failed_request cfg request],
       .ret false)
    else
      match handler (baseEnrich tp message) with
      | (evs, .ret true _) => (evs ++ [.commit], .ret true)
      | (evs, .ret false r2) =>
        (evs ++ [handle_failed_request cfg r2], .ret false)
      | (evs, .raised) =>
        (evs ++ [.logFatal cfg.topic.name], .exited 1)

end KafkaRequestQueueHandler

/-- A raised Python exception, as far as construction-time validation is
concerned: `ValueError(msg)`, or the `AttributeError` raised by reading an
attribute of `None`. -/
inductive PyErr where
  | valueError (msg : String)
  | attributeError
  deriving DecidableEq

/-- Whether a construction attempt succeeded (no exception raised). -/
def exceptIsOk {α : Type} : Except PyErr α → Bool
  | .ok _ => true
  | .error _ => false

/-- Python `x is None or x == ''` on an optional string. -/
def isNoneOrEmpty : Option String → Bool
  | none => true
  | some s => s = ""

/-- Nullable topic configuration as seen by the consumer factory. -/
structure TopicConfigOpt where
  name : Option String

/-- Nullable queue configuration as seen by the consumer factory and stored
by the service facade. -/
structure RequestQueueConfigOpt where
  topic : TopicConfigOpt
  group_id : Option String

/-- Nullable messaging configuration (`messaging_config`). -/
structure MessagingConfigOpt where
  connection_address : Option String

/-- The state a successfully constructed `KafkaConsumerFactory` holds. -/
structure KafkaConsumerFactoryState where
  bootstrap_servers : String
  topic_name : String
  group_id : String

/-- `KafkaConsumerFactory.__init__`: reject a `None` or empty connection
address, topic name or group id with a `ValueError`, in that order. -/
def KafkaConsumerFactoryInit (request_queue_config : RequestQueueConfigOpt)
    (messaging_config : MessagingConfigOpt) :
    Except PyErr KafkaConsumerFactoryState :=
  if isNoneOrEmpty messaging_config.connection_address then
    .error (.valueError "messaging_config.connection_address cannot be null")
  else if isNoneOrEmpty request_queue_config.topic.name then
    .error (.valueError "request_queue_config.topic.name cannot be null")
  else if isNoneOrEmpty request_queue_config.group_id then
    .error (.valueError "request_queue_config.group_id cannot be null")
  else
    .ok { bootstrap_servers := messaging_config.connection_address.getD "",
          topic_name := request_queue_config.topic.name.getD "",
          group_id := request_queue_config.group_id.getD "" }

/-- A driver configuration object carrying a `request_queue` attribute
(`infrastructure_config` / `lifecycle_config`). -/
structure DriverConfigOpt where
  request_queue : RequestQueueConfigOpt

/-- The keyword arguments of `KafkaRequestQueueService.__init__`.  The
outer `Option` records whether the keyword was passed at all (`none` means
absent from `kwargs`); the inner `Option` is the passed value, which may
itself be Python `None`.  The postal service, script file manager and the
two consumer factories are opaque collaborators, so only their nullness is
modelled. -/
structure ServiceKwargs where
  messaging_config : Option (Option MessagingConfigOpt)
  infrastructure_config : Option (Option DriverConfigOpt)
  lifecycle_config : Option (Option DriverConfigOpt)
  postal_service : Option (Option Unit)
  script_file_manager : Option (Option Unit)
  infrastructure_consumer_factory : Option (Option Unit)
  lifecycle_consumer_factory : Option (Option Unit)

/-- The state a successfully constructed `KafkaRequestQueueService` holds. -/
structure KafkaRequestQueueServiceState where
  script_file_manager : Option Unit
  bootstrap_servers : Option String
  infrastructure_request_queue_config : RequestQueueConfigOpt
  lifecycle_request_queue_config : RequestQueueConfigOpt
  postal_service : Option Unit
  infrastructure_consumer_factory : Option Unit
  lifecycle_consumer_factory : Option Unit

/-- `KafkaRequestQueueService.__init__`: check only the *presence* of each
required keyword argument (raising `ValueError('... argument not
provided')`), then store the values; reading `.connection_address` or
`.request_queue` off a config that was passed as `None` raises an
`AttributeError`, while a `None` postal service, script file manager or
consumer factory — or an empty connection address — is stored without any
check. -/
def KafkaRequestQueueServiceInit (kwargs : ServiceKwargs) :
    Except PyErr KafkaRequestQueueServiceState :=
  if kwargs.messaging_config.isNone then
    .error (.valueError "messaging_config argument not provided")
  else if kwargs.infrastructure_config.isNone then
    .error (.valueError "infrastructure_config argument not provided")
  else if kwargs.lifecycle_config.isNone then
    .error (.valueError "lifecycle_config argument not provided")
  else if kwargs.postal_service.isNone then
    .error (.valueError "postal_service argument not provided")
  else if kwargs.script_file_manager.isNone then
    .error (.valueError "script_file_manager argument not provided")
  else if kwargs.infrastructure_consumer_factory.isNone then
    .error (.valueError "infrastructure_consumer_factory argument not provided")
  else if kwargs.lifecycle_consumer_factory.isNone then
    .error (.valueError "lifecycle_consumer_factory argument not provided")
  else
    match kwargs.messaging_config.getD none with
    | none => .error .attributeError
    | some mc =>
      match kwargs.infrastructure_config.getD none with
      | none => .error .attributeError
      | some ic =>
        match kwargs.lifecycle_config.getD none with
        | none => .error .attributeError
        | some lc =>
          .ok { script_file_manager := kwargs.script_file_manager.getD none,
                bootstrap_servers := mc.connection_address,
                infrastructure_request_queue_config := ic.request_queue,
                lifecycle_request_queue_config := lc.request_queue,
                postal_service := kwargs.postal_service.getD none,
                infrastructure_consumer_factory :=
                  kwargs.infrastructure_consumer_factory.getD none,
                lifecycle_consumer_factory :=
                  kwargs.lifecycle_consumer_factory.getD none }

/-! Concrete fixtures used to witness the theorems on closed inputs. -/

/-- A concrete queue configuration. -/
def cfg0 : RequestQueueConfig :=
  { topic := { name := "driver_requests" }, group_id := "group1",
    failed_topic := { name := "driver_requests_failed" } }

/-- A concrete topic/partition. -/
def tp0 : TopicPartition := { topic := "driver_requests", partition := 0 }

/-- The spec's example infrastructure request: every required field set. -/
def reqInfraValid : Request :=
  [("request_id", .str "r1"), ("template", .str "t"),
   ("template_type", .str "TOSCA"), ("properties", .obj []),
   ("system_properties", .obj []), ("deployment_location", .obj [])]

/-- An infrastructure request whose `template` field is absent. -/
def reqMissingTemplate : Request :=
  [("request_id", .str "r2"), ("template_type", .str "TOSCA"),
   ("properties", .obj []), ("system_properties", .obj []),
   ("deployment_location", .obj [])]

/-- A request whose `request_id` is the empty string (present, not null). -/
def reqEmptyRid : Request :=
  [("request_id", .str ""), ("template", .str "t"),
   ("template_type", .str "TOSCA"), ("properties", .obj []),
   ("system_properties", .obj []), ("deployment_location", .obj [])]

/-- A valid lifecycle request: every required field set. -/
def reqLcValid : Request :=
  [("request_id", .str "r3"), ("lifecycle_name", .str "Install"),
   ("lifecycle_scripts", .str "scripts"), ("system_properties", .obj []),
   ("properties", .obj []), ("deployment_location", .obj [])]

/-- A lifecycle request whose `lifecycle_scripts` field is absent. -/
def reqLcMissingScripts : Request :=
  [("request_id", .str "r4"), ("lifecycle_name", .str "Install"),
   ("system_properties", .obj []), ("properties", .obj []),
   ("deployment_location", .obj [])]

/-- A request with no `request_id` key at all. -/
def reqNoRid : Request := [("template", .str "t")]

/-- A polled message carrying the valid infrastructure request. -/
def msg0 : KMessage := { offset := 4, payload := reqInfraValid }

/-- A polled message carrying the request with a missing `template`. -/
def msgMissingTemplate : KMessage := { offset := 5, payload := reqMissingTemplate }

/-- A polled message whose request has an empty-string `request_id`. -/
def msgEmptyRid : KMessage := { offset := 7, payload := reqEmptyRid }

/-- A polled message whose request has no `request_id`. -/
def msgNoRid : KMessage := { offset := 9, payload := reqNoRid }

/-- A hook that reports failure without side effects. -/
def handlerFalse0 : Handler := fun q => ([], .ret false q)

/-- A delegate that always succeeds. -/
def delegateTrue : Delegate := fun _ => .ok true

/-- A delegate that always reports failure. -/
def delegateFalse : Delegate := fun _ => .ok false

/-- A delegate that always raises. -/
def delegateRaise : Delegate := fun _ => .error ()

/-- A concrete script materializer. -/
def buildTree0 : String → Value → String := fun n _ => "/tmp/scripts/" ++ n

/-- Service kwargs with every keyword present but several values null or
empty: a `None` postal service and script file manager, and an empty
messaging connection address. -/
def kwargsNullValues : ServiceKwargs :=
  { messaging_config := some (some { connection_address := some "" }),
    infrastructure_config :=
      some (some { request_queue :=
        { topic := { name := some "t_i" }, group_id := some "g" } }),
    lifecycle_config :=
      some (some { request_queue :=
        { topic := { name := some "t_l" }, group_id := some "g" } }),
    postal_service := some none,
    script_file_manager := some none,
    infrastructure_consumer_factory := some (some ()),
    lifecycle_consumer_factory := some (some ()) }

end Ignition

namespace Ignition

/-! Basic lemmas about the request mapping and the validation sequence. -/

theorem getVal?_setVal (r : Request) (k key : String) (v : Value) :
    getVal? (setVal r k v) key = if k = key then some v else getVal? r key := by
  induction r with
  | nil => simp [setVal, getVal?]
  | cons p rest ih =>
    obtain ⟨k', w⟩ := p
    by_cases hk : k' = k
    · subst hk
      by_cases hkey : k' = key <;> simp [setVal, getVal?, hkey]
    · by_cases hkey : k' = key
      · subst hkey
        simp [setVal, getVal?, hk, Ne.symm hk]
      · simp [setVal, getVal?, hk, hkey, ih]

theorem missingOrNull_setVal_ne (r : Request) (k key : String) (v : Value)
    (h : k ≠ key) : missingOrNull (setVal r k v) key = missingOrNull r key := by
  simp [missingOrNull, getVal?_setVal, h]

theorem requireFields_eq_firstMissing (cfg : RequestQueueConfig)
    (r : Request) (fields : List String) :
    requireFields cfg r fields =
      (firstMissingField r fields).map
        (fun f => [Event.logWarn f, handle_failed_request cfg r]) := by
  induction fields with
  | nil => simp [requireFields, firstMissingField]
  | cons f fs ih =>
    by_cases h : missingOrNull r f
    · simp [requireFields, firstMissingField, List.find?, h]
    · simp only [Bool.not_eq_true] at h
      simp [requireFields, firstMissingField, List.find?, h] at ih ⊢
      exact ih

theorem firstMissingField_congr (r r' : Request) (fields : List String)
    (h : ∀ f ∈ fields, missingOrNull r' f = missingOrNull r f) :
    firstMissingField r' fields = firstMissingField r fields := by
  induction fields with
  | nil => rfl
  | cons f fs ih =>
    have hf := h f (List.mem_cons_self f fs)
    have hfs := fun g hg => h g (List.mem_cons_of_mem f hg)
    have ih' := ih hfs
    simp only [firstMissingField, List.find?] at ih' ⊢
    rw [hf]
    cases missingOrNull r f with
    | true => rfl
    | false => exact ih'

theorem missingOrNull_baseEnrich (tp : TopicPartition) (m : KMessage)
    (key : String) (h1 : key ≠ "partition") (h2 : key ≠ "offset") :
    missingOrNull (baseEnrich tp m) key = missingOrNull m.payload key := by
  unfold baseEnrich
  rw [missingOrNull_setVal_ne _ _ _ _ (Ne.symm h2),
    missingOrNull_setVal_ne _ _ _ _ (Ne.symm h1)]

theorem firstMissing_infra_baseEnrich (tp : TopicPartition) (m : KMessage) :
    firstMissingField (baseEnrich tp m) infraRequiredFields =
      firstMissingField m.payload infraRequiredFields := by
  apply firstMissingField_congr
  intro f hf
  simp only [infraRequiredFields, List.mem_cons, List.not_mem_nil,
    or_false] at hf
  rcases hf with h | h | h | h | h | h <;> subst h <;>
    exact missingOrNull_baseEnrich tp m _ (by decide) (by decide)

theorem firstMissing_lifecycle_baseEnrich (tp : TopicPartition)
    (m : KMessage) :
    firstMissingField (baseEnrich tp m) lifecycleRequiredFields =
      firstMissingField m.payload lifecycleRequiredFields := by
  apply firstMissingField_congr
  intro f hf
  simp only [lifecycleRequiredFields, List.mem_cons, List.not_mem_nil,
    or_false] at hf
  rcases hf with h | h | h | h | h | h <;> subst h <;>
    exact missingOrNull_baseEnrich tp m _ (by decide) (by decide)

theorem getVal?_lifecycleEnrich_path (path : String) (r : Request) :
    getVal? (lifecycleEnrich path r) "lifecycle_path" =
      some (.str path) := by
  unfold lifecycleEnrich
  rw [getVal?_setVal, if_neg (by decide), getVal?_setVal,
    if_neg (by decide), getVal?_setVal, if_pos rfl]

/-! Claim theorems. -/

/-- C2: `KafkaInfrastructureRequestQueueHandler.handle_request` checks the
required fields in the fixed order `request_id`, `template`,
`template_type`, `properties`, `system_properties`, `deployment_location`;
the first absent-or-null field yields a field-specific warning, a single
dead-letter forward, and a `False` return, with the delegate never invoked
and no offset commit. -/
theorem infra_handle_request_first_missing_field
    (cfg : RequestQueueConfig) (delegate : Delegate) (r : Request)
    (f : String)
    (h : firstMissingField r infraRequiredFields = some f) :
    KafkaInfrastructureRequestQueueHandler.handle_request cfg delegate r =
      ([.logWarn f, handle_failed_request cfg r], .ret false r) ∧
    infraRequiredFields =
      ["request_id", "template", "template_type", "properties",
       "system_properties", "deployment_location"] ∧
    countDelegateCalls [.logWarn f, handle_failed_request cfg r] = 0 ∧
    countCommits [.logWarn f, handle_failed_request cfg r] = 0 := by
  refine ⟨?_, rfl, ?_, ?_⟩
  · unfold KafkaInfrastructureRequestQueueHandler.handle_request
    rw [requireFields_eq_firstMissing, h]
    rfl
  · simp [countDelegateCalls, handle_failed_request, Event.isDelegateCall]
  · simp [countCommits, handle_failed_request, Event.isCommit]

/-- C2 witness: a concrete request missing `template` is discarded with the
`template`-specific warning and one dead-letter post. -/
theorem infra_handle_request_first_missing_field_witness :
    KafkaInfrastructureRequestQueueHandler.handle_request cfg0 delegateTrue
        reqMissingTemplate =
      ([.logWarn "template", handle_failed_request cfg0 reqMissingTemplate],
       .ret false reqMissingTemplate) ∧
    infraRequiredFields =
      ["request_id", "template", "template_type", "properties",
       "system_properties", "deployment_location"] ∧
    countDelegateCalls
      [.logWarn "template", handle_failed_request cfg0 reqMissingTemplate] = 0 ∧
    countCommits
      [.logWarn "template", handle_failed_request cfg0 reqMissingTemplate] = 0 :=
  infra_handle_request_first_missing_field cfg0 delegateTrue
    reqMissingTemplate "template" (by rfl)

/-- C7: `handle_failed_request` publishes the request body to the configured
dead-letter topic, keyed by `request_id` exactly when that field is present
and not null, and unkeyed otherwise. -/
theorem handle_failed_request_keyed_iff_request_id
    (cfg : RequestQueueConfig) (r : Request) :
    handle_failed_request cfg r =
      .post cfg.failed_topic.name r (requestKey r) ∧
    (∀ v : Value, requestKey r = some v ↔
      (getVal? r "request_id" = some v ∧ v.isNull = false)) := by
  refine ⟨rfl, fun v => ?_⟩
  cases hg : getVal? r "request_id" with
  | none => simp [requestKey, hg]
  | some w =>
    by_cases hw : w.isNull = true
    · simp only [requestKey, hg]
      rw [if_pos hw]
      constructor
      · intro hc; cases hc
      · rintro ⟨hv, hnull⟩
        injection hv with hv'
        rw [hv'] at hw
        rw [hw] at hnull
        cases hnull
    · simp only [requestKey, hg]
      rw [if_neg hw]
      constructor
      · intro hc
        injection hc with hc'
        subst hc'
        exact ⟨rfl, by simpa using hw⟩
      · exact fun hp => hp.1.symm ▸ rfl

/-- C3: when the specialized hook returns `False`, `process_request` forwards
the hook's (possibly enriched) request to the dead-letter path, commits
nothing further, and returns `False`. -/
theorem process_request_handler_false_dead_letters
    (cfg : RequestQueueConfig) (handler : Handler) (tp : TopicPartition)
    (m : KMessage) (evs : List Event) (r2 : Request)
    (hrid : missingOrNull m.payload "request_id" = false)
    (hh : handler (baseEnrich tp m) = (evs, .ret false r2)) :
    KafkaRequestQueueHandler.process_request cfg handler [(tp, [m])] =
      (evs ++ [handle_failed_request cfg r2], .ret false) ∧
    countCommits (evs ++ [handle_failed_request cfg r2]) =
      countCommits evs := by
  constructor
  · simp only [KafkaRequestQueueHandler.process_request, hrid,
      Bool.false_eq_true, if_false, hh]
  · simp [countCommits, handle_failed_request, Event.isCommit]

/-- C3 witness: a concrete hook returning `False` on the valid request leads
to exactly one dead-letter forward and a `False` return. -/
theorem process_request_handler_false_dead_letters_witness :
    KafkaRequestQueueHandler.process_request cfg0 handlerFalse0
        [(tp0, [msg0])] =
      ([] ++ [handle_failed_request cfg0 (baseEnrich tp0 msg0)], .ret false) ∧
    countCommits ([] ++ [handle_failed_request cfg0 (baseEnrich tp0 msg0)]) =
      countCommits [] :=
  process_request_handler_false_dead_letters cfg0 handlerFalse0 tp0 msg0 []
    (baseEnrich tp0 msg0) (by rfl) (by rfl)

/-- C6 counterexample: when the poll yields no record the Python function
falls off the end of the `for` loop and returns `None`, not the boolean
`False` the claim states. -/
theorem process_request_no_record_returns_none_cex :
    KafkaRequestQueueHandler.process_request cfg0 handlerFalse0 [] =
      ([], .retNone) ∧
    ProcResult.retNone ≠ ProcResult.ret false :=
  ⟨rfl, by decide⟩

/-- C6 (amended): when the poll yields no record — an empty poll result, or
one whose message lists are empty — `process_request` performs no side
effect and returns Python `None` (a falsy value, but not the boolean
`False`). -/
theorem process_request_no_record_returns_none
    (cfg : RequestQueueConfig) (handler : Handler) :
    KafkaRequestQueueHandler.process_request cfg handler [] =
      ([], .retNone) ∧
    ∀ tp : TopicPartition,
      KafkaRequestQueueHandler.process_request cfg handler [(tp, [])] =
        ([], .retNone) :=
  ⟨rfl, fun _ => rfl⟩

/-- C5 counterexample: a request whose `request_id` is the empty string is
*not* discarded — the guard only tests `is None` — so with a delegate that
succeeds, the message is processed, the hook is invoked, the offset is
committed and `True` is returned. -/
theorem process_request_empty_request_id_not_discarded :
    (KafkaRequestQueueHandler.process_request cfg0
        (KafkaInfrastructureRequestQueueHandler.handle_request cfg0
          delegateTrue) [(tp0, [msgEmptyRid])]).2 = .ret true ∧
    ProcResult.ret true ≠ ProcResult.ret false ∧
    countDelegateCalls
      (KafkaRequestQueueHandler.process_request cfg0
        (KafkaInfrastructureRequestQueueHandler.handle_request cfg0
          delegateTrue) [(tp0, [msgEmptyRid])]).1 = 1 ∧
    countPostsTo cfg0.failed_topic.name
      (KafkaRequestQueueHandler.process_request cfg0
        (KafkaInfrastructureRequestQueueHandler.handle_request cfg0
          delegateTrue) [(tp0, [msgEmptyRid])]).1 = 0 :=
  ⟨rfl, by decide, rfl, rfl⟩

/-- C5 (amended): for every polled message whose payload's `request_id` is
absent or null, `process_request` logs a warning, forwards the request to
the dead-letter path and returns `False`, without invoking the
`handle_request` hook. -/
theorem process_request_missing_or_null_request_id_discards
    (cfg : RequestQueueConfig) (handler : Handler) (tp : TopicPartition)
    (m : KMessage)
    (hrid : missingOrNull m.payload "request_id" = true) :
    KafkaRequestQueueHandler.process_request cfg handler [(tp, [m])] =
      ([.logWarn "request_id", handle_failed_request cfg m.payload],
       .ret false) ∧
    countDelegateCalls
      [.logWarn "request_id", handle_failed_request cfg m.payload] = 0 := by
  constructor
  · simp only [KafkaRequestQueueHandler.process_request, hrid, if_true]
  · simp [countDelegateCalls, handle_failed_request, Event.isDelegateCall]

/-- C5 witness: a concrete request with no `request_id` is discarded with a
warning and a dead-letter forward, and the hook never runs. -/
theorem process_request_missing_or_null_request_id_discards_witness :
    KafkaRequestQueueHandler.process_request cfg0 handlerFalse0
        [(tp0, [msgNoRid])] =
      ([.logWarn "request_id", handle_failed_request cfg0 reqNoRid],
       .ret false) ∧
    countDelegateCalls
      [.logWarn "request_id", handle_failed_request cfg0 reqNoRid] = 0 :=
  process_request_missing_or_null_request_id_discards cfg0 handlerFalse0
    tp0 msgNoRid (by rfl)

/-- C1: for a polled message whose payload has every required
infrastructure field and whose delegate succeeds, `process_request` returns
`True`, commits exactly once, and publishes nothing to the dead-letter
topic. -/
theorem process_request_valid_infra_commits_once
    (cfg : RequestQueueConfig) (delegate : Delegate) (tp : TopicPartition)
    (m : KMessage)
    (hrid : missingOrNull m.payload "request_id" = false)
    (hfields : firstMissingField m.payload infraRequiredFields = none)
    (hdel : delegate (infraNormalize (baseEnrich tp m)) = .ok true) :
    KafkaRequestQueueHandler.process_request cfg
        (KafkaInfrastructureRequestQueueHandler.handle_request cfg delegate)
        [(tp, [m])] =
      ([.delegateCall (infraNormalize (baseEnrich tp m)), .commit],
       .ret true) ∧
    countCommits
      [Event.delegateCall (infraNormalize (baseEnrich tp m)),
       Event.commit] = 1 ∧
    countPostsTo cfg.failed_topic.name
      [Event.delegateCall (infraNormalize (baseEnrich tp m)),
       Event.commit] = 0 := by
  have hreq : requireFields cfg (baseEnrich tp m) infraRequiredFields =
      none := by
    rw [requireFields_eq_firstMissing, firstMissing_infra_baseEnrich,
      hfields]
    rfl
  refine ⟨?_, ?_, ?_⟩
  · simp only [KafkaRequestQueueHandler.process_request, hrid,
      Bool.false_eq_true, if_false,
      KafkaInfrastructureRequestQueueHandler.handle_request, hreq, hdel,
      List.cons_append, List.nil_append]
  · simp [countCommits, Event.isCommit, List.countP_cons]
  · simp [countPostsTo, Event.isPostTo, List.countP_cons]

/-- C1 witness: the spec's example infrastructure request with a concrete
successful delegate is committed once with no dead-letter publish. -/
theorem process_request_valid_infra_commits_once_witness :
    KafkaRequestQueueHandler.process_request cfg0
        (KafkaInfrastructureRequestQueueHandler.handle_request cfg0
          delegateTrue) [(tp0, [msg0])] =
      ([.delegateCall (infraNormalize (baseEnrich tp0 msg0)), .commit],
       .ret true) ∧
    countCommits
      [Event.delegateCall (infraNormalize (baseEnrich tp0 msg0)),
       Event.commit] = 1 ∧
    countPostsTo cfg0.failed_topic.name
      [Event.delegateCall (infraNormalize (baseEnrich tp0 msg0)),
       Event.commit] = 0 :=
  process_request_valid_infra_commits_once cfg0 delegateTrue tp0 msg0
    (by rfl) (by rfl) (by rfl)

/-- C4: when the delegate raises, the infrastructure handler logs the
exception with the request id and topic and re-raises; `process_request`
does not return a boolean — the base logs and the process exits with
status 1 — and neither a commit nor a further dead-letter publish occurs. -/
theorem process_request_delegate_raise_exits
    (cfg : RequestQueueConfig) (delegate : Delegate) (tp : TopicPartition)
    (m : KMessage)
    (hrid : missingOrNull m.payload "request_id" = false)
    (hfields : firstMissingField m.payload infraRequiredFields = none)
    (hdel : delegate (infraNormalize (baseEnrich tp m)) = .error ()) :
    KafkaRequestQueueHandler.process_request cfg
        (KafkaInfrastructureRequestQueueHandler.handle_request cfg delegate)
        [(tp, [m])] =
      ([.delegateCall (infraNormalize (baseEnrich tp m)),
        .logException
          (getVal? (infraNormalize (baseEnrich tp m)) "request_id")
          cfg.topic.name,
        .logFatal cfg.topic.name], .exited 1) ∧
    countCommits
      [Event.delegateCall (infraNormalize (baseEnrich tp m)),
       Event.logException
         (getVal? (infraNormalize (baseEnrich tp m)) "request_id")
         cfg.topic.name,
       Event.logFatal cfg.topic.name] = 0 ∧
    countPostsTo cfg.failed_topic.name
      [Event.delegateCall (infraNormalize (baseEnrich tp m)),
       Event.logException
         (getVal? (infraNormalize (baseEnrich tp m)) "request_id")
         cfg.topic.name,
       Event.logFatal cfg.topic.name] = 0 := by
  have hreq : requireFields cfg (baseEnrich tp m) infraRequiredFields =
      none := by
    rw [requireFields_eq_firstMissing, firstMissing_infra_baseEnrich,
      hfields]
    rfl
  refine ⟨?_, ?_, ?_⟩
  · simp only [KafkaRequestQueueHandler.process_request, hrid,
      Bool.false_eq_true, if_false,
      KafkaInfrastructureRequestQueueHandler.handle_request, hreq, hdel]
    rfl
  · simp [countCommits, Event.isCommit, List.countP_cons]
  · simp [countPostsTo, Event.isPostTo, List.countP_cons]

/-- C4 witness: a concrete raising delegate on the valid request makes the
step terminate the process with exit status 1 and no commit or publish. -/
theorem process_request_delegate_raise_exits_witness :
    KafkaRequestQueueHandler.process_request cfg0
        (KafkaInfrastructureRequestQueueHandler.handle_request cfg0
          delegateRaise) [(tp0, [msg0])] =
      ([.delegateCall (infraNormalize (baseEnrich tp0 msg0)),
        .logException
          (getVal? (infraNormalize (baseEnrich tp0 msg0)) "request_id")
          cfg0.topic.name,
        .logFatal cfg0.topic.name], .exited 1) ∧
    countCommits
      [Event.delegateCall (infraNormalize (baseEnrich tp0 msg0)),
       Event.logException
         (getVal? (infraNormalize (baseEnrich tp0 msg0)) "request_id")
         cfg0.topic.name,
       Event.logFatal cfg0.topic.name] = 0 ∧
    countPostsTo cfg0.failed_topic.name
      [Event.delegateCall (infraNormalize (baseEnrich tp0 msg0)),
       Event.logException
         (getVal? (infraNormalize (baseEnrich tp0 msg0)) "request_id")
         cfg0.topic.name,
       Event.logFatal cfg0.topic.name] = 0 :=
  process_request_delegate_raise_exits cfg0 delegateRaise tp0 msg0
    (by rfl) (by rfl) (by rfl)

/-- C8: when every required lifecycle field is present,
`KafkaLifecycleRequestQueueHandler.handle_request` calls `build_tree` with
the freshly generated identifier and the request's `lifecycle_scripts` and
sets `request["lifecycle_path"]` to the returned path before delegating;
when a required field (e.g. `lifecycle_scripts`) is missing, `build_tree`
is never called, the request is left unchanged (so `lifecycle_path` is
never set) and `False` is returned.  The `uuid.uuid4()` value is modelled
by the `file_name` parameter. -/
theorem lifecycle_handle_request_materializes_scripts
    (cfg : RequestQueueConfig) (build_tree : String → Value → String)
    (file_name : String) (delegate : Delegate) (r : Request) :
    (∀ b : Bool, firstMissingField r lifecycleRequiredFields = none →
      delegate (lifecycleEnrich
        (build_tree file_name (getValD r "lifecycle_scripts")) r) = .ok b →
      KafkaLifecycleRequestQueueHandler.handle_request cfg build_tree
          file_name delegate r =
        ([.buildTreeCall file_name (getValD r "lifecycle_scripts"),
          .delegateCall (lifecycleEnrich
            (build_tree file_name (getValD r "lifecycle_scripts")) r)],
         .ret b (lifecycleEnrich
            (build_tree file_name (getValD r "lifecycle_scripts")) r)) ∧
      getVal? (lifecycleEnrich
          (build_tree file_name (getValD r "lifecycle_scripts")) r)
          "lifecycle_path" =
        some (.str (build_tree file_name (getValD r "lifecycle_scripts")))) ∧
    (∀ f : String, firstMissingField r lifecycleRequiredFields = some f →
      KafkaLifecycleRequestQueueHandler.handle_request cfg build_tree
          file_name delegate r =
        ([.logWarn f, handle_failed_request cfg r], .ret false r) ∧
      countBuildTreeCalls [.logWarn f, handle_failed_request cfg r] = 0) := by
  constructor
  · intro b hnone hdel
    have hreq : requireFields cfg r lifecycleRequiredFields = none := by
      rw [requireFields_eq_firstMissing, hnone]
      rfl
    refine ⟨?_, getVal?_lifecycleEnrich_path _ _⟩
    simp only [KafkaLifecycleRequestQueueHandler.handle_request, hreq, hdel]
  · intro f hsome
    have hreq : requireFields cfg r lifecycleRequiredFields =
        some [Event.logWarn f, handle_failed_request cfg r] := by
      rw [requireFields_eq_firstMissing, hsome]
      rfl
    constructor
    · simp only [KafkaLifecycleRequestQueueHandler.handle_request, hreq]
    · simp [countBuildTreeCalls, handle_failed_request,
        Event.isBuildTreeCall]

/-- C8 witness: a concrete valid lifecycle request is enriched with the
materializer's path before delegation, and a concrete request missing
`lifecycle_scripts` is rejected with no `build_tree` call. -/
theorem lifecycle_handle_request_materializes_scripts_witness :
    (KafkaLifecycleRequestQueueHandler.handle_request cfg0 buildTree0
        "uuid-1" delegateTrue reqLcValid =
      ([.buildTreeCall "uuid-1" (getValD reqLcValid "lifecycle_scripts"),
        .delegateCall (lifecycleEnrich
          (buildTree0 "uuid-1" (getValD reqLcValid "lifecycle_scripts"))
          reqLcValid)],
       .ret true (lifecycleEnrich
          (buildTree0 "uuid-1" (getValD reqLcValid "lifecycle_scripts"))
          reqLcValid)) ∧
     getVal? (lifecycleEnrich
        (buildTree0 "uuid-1" (getValD reqLcValid "lifecycle_scripts"))
        reqLcValid) "lifecycle_path" =
      some (.str (buildTree0 "uuid-1"
        (getValD reqLcValid "lifecycle_scripts")))) ∧
    (KafkaLifecycleRequestQueueHandler.handle_request cfg0 buildTree0
        "uuid-2" delegateTrue reqLcMissingScripts =
      ([.logWarn "lifecycle_scripts",
        handle_failed_request cfg0 reqLcMissingScripts],
       .ret false reqLcMissingScripts) ∧
     countBuildTreeCalls
       [.logWarn "lifecycle_scripts",
        handle_failed_request cfg0 reqLcMissingScripts] = 0) :=
  ⟨(lifecycle_handle_request_materializes_scripts cfg0 buildTree0 "uuid-1"
      delegateTrue reqLcValid).1 true (by rfl) (by rfl),
   (lifecycle_handle_request_materializes_scripts cfg0 buildTree0 "uuid-2"
      delegateTrue reqLcMissingScripts).2 "lifecycle_scripts" (by rfl)⟩

/-- C10: for a polled request with a non-null `request_id` but some other
infrastructure field missing, the dead-letter topic receives *two*
messages for the single failing request: one from the specialized
`handle_request` and one more from the base `process_request` on the
`False` return. -/
theorem missing_field_dead_letters_twice
    (cfg : RequestQueueConfig) (delegate : Delegate) (tp : TopicPartition)
    (m : KMessage) (f : String)
    (hrid : missingOrNull m.payload "request_id" = false)
    (hfield : firstMissingField m.payload infraRequiredFields = some f) :
    KafkaRequestQueueHandler.process_request cfg
        (KafkaInfrastructureRequestQueueHandler.handle_request cfg delegate)
        [(tp, [m])] =
      ([.logWarn f, handle_failed_request cfg (baseEnrich tp m),
        handle_failed_request cfg (baseEnrich tp m)], .ret false) ∧
    countPostsTo cfg.failed_topic.name
      [Event.logWarn f, handle_failed_request cfg (baseEnrich tp m),
       handle_failed_request cfg (baseEnrich tp m)] = 2 := by
  have hreq : requireFields cfg (baseEnrich tp m) infraRequiredFields =
      some [Event.logWarn f, handle_failed_request cfg (baseEnrich tp m)] := by
    rw [requireFields_eq_firstMissing, firstMissing_infra_baseEnrich,
      hfield]
    rfl
  refine ⟨?_, ?_⟩
  · simp only [KafkaRequestQueueHandler.process_request, hrid,
      Bool.false_eq_true, if_false,
      KafkaInfrastructureRequestQueueHandler.handle_request, hreq,
      List.cons_append, List.nil_append]
  · simp [countPostsTo, Event.isPostTo, handle_failed_request,
      List.countP_cons]

/-- C10 witness: a concrete request with `request_id` but no `template` is
dead-lettered twice in one `process_request` step. -/
theorem missing_field_dead_letters_twice_witness :
    KafkaRequestQueueHandler.process_request cfg0
        (KafkaInfrastructureRequestQueueHandler.handle_request cfg0
          delegateTrue) [(tp0, [msgMissingTemplate])] =
      ([.logWarn "template",
        handle_failed_request cfg0 (baseEnrich tp0 msgMissingTemplate),
        handle_failed_request cfg0 (baseEnrich tp0 msgMissingTemplate)],
       .ret false) ∧
    countPostsTo cfg0.failed_topic.name
      [Event.logWarn "template",
       handle_failed_request cfg0 (baseEnrich tp0 msgMissingTemplate),
       handle_failed_request cfg0 (baseEnrich tp0 msgMissingTemplate)] = 2 :=
  missing_field_dead_letters_twice cfg0 delegateTrue tp0 msgMissingTemplate
    "template" (by rfl) (by rfl)

/-- C9 counterexample: the service constructor accepts keyword arguments
whose values are null or empty — here a `None` postal service, a `None`
script file manager and an empty messaging connection address — without
raising, deferring those failures to first use. -/
theorem service_construction_accepts_null_values :
    exceptIsOk (KafkaRequestQueueServiceInit kwargsNullValues) = true ∧
    kwargsNullValues.postal_service = some none ∧
    kwargsNullValues.script_file_manager = some none ∧
    ((kwargsNullValues.messaging_config.getD none).getD
      { connection_address := none }).connection_address = some "" :=
  ⟨rfl, rfl, rfl, rfl⟩

/-- C9 (amended): the consumer factory raises a `ValueError` at
construction exactly when the connection address, topic name or group id
is null or empty; the service constructor raises exactly when a required
keyword argument is absent or a config object passed as `None` has an
attribute read — it does not reject null or empty argument *values* such
as a null postal service or an empty connection address. -/
theorem construction_validation_characterization :
    (∀ (rqc : RequestQueueConfigOpt) (mc : MessagingConfigOpt),
      exceptIsOk (KafkaConsumerFactoryInit rqc mc) =
        (!isNoneOrEmpty mc.connection_address &&
         !isNoneOrEmpty rqc.topic.name && !isNoneOrEmpty rqc.group_id)) ∧
    (∀ kwargs : ServiceKwargs,
      exceptIsOk (KafkaRequestQueueServiceInit kwargs) =
        ((kwargs.messaging_config.getD none).isSome &&
         (kwargs.infrastructure_config.getD none).isSome &&
         (kwargs.lifecycle_config.getD none).isSome &&
         kwargs.postal_service.isSome &&
         kwargs.script_file_manager.isSome &&
         kwargs.infrastructure_consumer_factory.isSome &&
         kwargs.lifecycle_consumer_factory.isSome)) := by
  constructor
  · intro rqc mc
    cases h1 : isNoneOrEmpty mc.connection_address <;>
      cases h2 : isNoneOrEmpty rqc.topic.name <;>
        cases h3 : isNoneOrEmpty rqc.group_id <;>
          simp [KafkaConsumerFactoryInit, exceptIsOk, h1, h2, h3]
  · intro kwargs
    obtain ⟨mc, ic, lc, ps, sfm, icf, lcf⟩ := kwargs
    cases mc with
    | none => simp [KafkaRequestQueueServiceInit, exceptIsOk]
    | some mc1 =>
      cases ic with
      | none => simp [KafkaRequestQueueServiceInit, exceptIsOk]
      | some ic1 =>
        cases lc with
        | none => simp [KafkaRequestQueueServiceInit, exceptIsOk]
        | some lc1 =>
          cases ps with
          | none => simp [KafkaRequestQueueServiceInit, exceptIsOk]
          | some ps1 =>
            cases sfm with
            | none => simp [KafkaRequestQueueServiceInit, exceptIsOk]
            | some sfm1 =>
              cases icf with
              | none => simp [KafkaRequestQueueServiceInit, exceptIsOk]
              | some icf1 =>
                cases lcf with
                | none => simp [KafkaRequestQueueServiceInit, exceptIsOk]
                | some lcf1 =>
                  rcases mc1 with _ | mc2 <;> rcases ic1 with _ | ic2 <;>
                    rcases lc1 with _ | lc2 <;>
                      simp [KafkaRequestQueueServiceInit, exceptIsOk]

end Ignition
